import Mathlib

/-!
A shallow embedding of the Wendor vending-machine relay (backend/server.js)
and of the client vend state machine (the frontend Products page), together
with theorems checking the behavioural properties stated in the design
specification.  The relay owns a single upstream connection to the vending
machine controller (VMC), queues commands while disconnected, and fans
upstream events out to downstream browser clients.
-/

/-- A JavaScript value, as far as the relay inspects one.  The relay only
distinguishes undefined/null, booleans, numbers, strings, arrays and
objects.  Numbers are modelled as integers: every number the relay handles
is an item id or an integer price. -/
inductive JsValue where
  | undefined
  | null
  | bool (b : Bool)
  | num (n : Int)
  | str (s : String)
  | arr (elems : List JsValue)
  | obj (fields : List (String × JsValue))

/-- JavaScript truthiness, restricted to the modelled values (NaN is not
modelled; the relay never branches on a float). -/
def truthy : JsValue → Bool
  | .undefined => false
  | .null => false
  | .bool b => b
  | .num n => n != 0
  | .str s => s != ""
  | .arr _ => true
  | .obj _ => true

/-- Property access `v.k`: a missing field or a non-object yields
undefined. -/
def getField : JsValue → String → JsValue
  | .obj fields, k => (List.lookup k fields).getD .undefined
  | _, _ => .undefined

/-- Array.isArray. -/
def isArr : JsValue → Bool
  | .arr _ => true
  | _ => false

/-- The item coercion in the /api/pay handler:
`Array.isArray(items) ? items : (items ? [items] : [])`. -/
def coerceItems : JsValue → List JsValue
  | .arr elems => elems
  | v => if truthy v then [v] else []

/-- JavaScript `a || d` for an optional string `a` (an absent or empty
string falls through to the default). -/
def jsOrString (a : Option String) (d : String) : String :=
  match a with
  | some s => if s == "" then d else s
  | none => d

/-- The readyState of a WebSocket, with the names of the WebSocket
constants used by the source (`WebSocket.OPEN` etc.).  A freshly
constructed socket is CONNECTING. -/
inductive ReadyState where
  | CONNECTING
  | OPEN
  | CLOSING
  | CLOSED
deriving DecidableEq, BEq

/-- A command the relay sends upstream: the `type:'status'` probe or a
`type:'vend'` command carrying the coerced item array. -/
inductive Command where
  | status
  | vend (items : List JsValue)

/-- The mutable module-level state of the relay, plus enough bookkeeping to
observe it: `socketStates` records the readyState of every WebSocket the
relay has constructed (index = creation order), `armedTimers` counts the
setTimeout callbacks of scheduleVmcReconnect that are pending, and
`sentLog` records every upstream send as (target socket, command). -/
structure World where
  vmcSocket : Option Nat
  vmcConnected : Bool
  vmcReconnectScheduled : Bool
  pendingMessagesQueue : List Command
  socketStates : List ReadyState
  armedTimers : Nat
  sentLog : List (Option Nat × Command)

/-- The state at process start. -/
def initialWorld : World :=
  { vmcSocket := none
    vmcConnected := false
    vmcReconnectScheduled := false
    pendingMessagesQueue := []
    socketStates := []
    armedTimers := 0
    sentLog := [] }

/-- The readyState of socket `sid` (an index that was never allocated reads
as CLOSED; it is never consulted). -/
def readyStateOf (w : World) (sid : Nat) : ReadyState :=
  w.socketStates.getD sid .CLOSED

/-- The guard `vmcSocket && vmcSocket.readyState === WebSocket.OPEN` used
by the downstream-connect and pay handlers. -/
def socketIsOpen (w : World) : Bool :=
  match w.vmcSocket with
  | some sid => readyStateOf w sid == .OPEN
  | none => false

/-- The guard of ensureVmcConnection:
`vmcConnected && vmcSocket && vmcSocket.readyState === WebSocket.OPEN`. -/
def currentOpen (w : World) : Bool :=
  w.vmcConnected && socketIsOpen w

/-- `new WebSocket(VMC_WS_URL)`: allocates a fresh socket in the
CONNECTING state and stores it in the `vmcSocket` module variable. -/
def newSocket (w : World) : World :=
  { w with vmcSocket := some w.socketStates.length
           socketStates := w.socketStates ++ [.CONNECTING] }

/-- ensureVmcConnection: return if the guard holds, otherwise open a new
connection attempt (the handlers it installs are modelled by the relay
step relation below). -/
def ensureVmcConnection (w : World) : World :=
  if currentOpen w then w else newSocket w

/-- scheduleVmcReconnect: arm a 1.5s reconnect timeout unless the
`vmcReconnectScheduled` flag is already set. -/
def scheduleVmcReconnect (w : World) : World :=
  if w.vmcReconnectScheduled then w
  else { w with vmcReconnectScheduled := true, armedTimers := w.armedTimers + 1 }

/-- `vmcSocket.send(JSON.stringify(cmd))`: the transmission is recorded
against the socket currently held in the `vmcSocket` variable.  A send on
an OPEN socket is fire-and-forget and always accepted; a send on a
CONNECTING socket would throw synchronously in the source (there is no
try/catch around the flush), so the theorems below only ever exercise
sends through the current socket while it is OPEN, or flushes of an empty
queue. -/
def vmcSend (w : World) (c : Command) : World :=
  { w with sentLog := w.sentLog ++ [(w.vmcSocket, c)] }

/-- The body of the `open` handler installed on every socket the relay
constructs: mark connected, clear the reconnect flag (the pending timeout,
if any, is not cancelled), flush the queue in FIFO order through the
current `vmcSocket`, and empty it.  The flush is faithful when the socket
that opened is the current `vmcSocket` (then the sends target an OPEN
socket) or when the queue is empty; a non-empty flush through a stale
`vmcSocket` still CONNECTING would instead throw uncaught in the source,
and no theorem below traverses that path. -/
def onVmcOpenHandler (w : World) : World :=
  let w1 := { w with vmcConnected := true, vmcReconnectScheduled := false }
  let w2 := w1.pendingMessagesQueue.foldl vmcSend w1
  { w2 with pendingMessagesQueue := [] }

/-- Transport bookkeeping: record a new readyState for socket `sid`. -/
def setSocketState (w : World) (sid : Nat) (s : ReadyState) : World :=
  { w with socketStates := w.socketStates.set sid s }

/-- The `wss.on('connection')` handler: ensure the upstream connection,
then send a status probe if the current socket is open, else enqueue it.
(The backend-status acknowledgement goes to the downstream client only and
does not touch the relay state.) -/
def onDownstreamConnect (w : World) : World :=
  let w1 := ensureVmcConnection w
  if socketIsOpen w1 then vmcSend w1 .status
  else { w1 with pendingMessagesQueue := w1.pendingMessagesQueue ++ [.status] }

/-- The response of POST /api/pay: a 400 validation error or the
`ok:true` acceptance carrying the coerced item array. -/
inductive PayResponse where
  | badRequest (error : String)
  | success (message : String) (requestedItems : List JsValue)

/-- The POST /api/pay handler: destructure `items` from the body, coerce
it to an array, reject an empty array with a 400 and no side effect,
otherwise ensure the upstream connection and send or enqueue the vend
command, answering with the acceptance response either way. -/
def apiPay (body : JsValue) (w : World) : PayResponse × World :=
  let b := if truthy body then body else JsValue.obj []
  let items := getField b "items"
  let itemArray := coerceItems items
  if itemArray.length == 0 then
    (PayResponse.badRequest "items array required", w)
  else
    let vendCommand := Command.vend itemArray
    let w1 := ensureVmcConnection w
    if socketIsOpen w1 then
      (PayResponse.success "Payment processed, vending requested" itemArray,
        vmcSend w1 vendCommand)
    else
      (PayResponse.success "Payment processed, vending requested" itemArray,
        { w1 with pendingMessagesQueue := w1.pendingMessagesQueue ++ [vendCommand] })

/-- The events the single-threaded event loop can dispatch to the relay:
an ensureVmcConnection call (server startup), a downstream browser
connection, a pay request, a transport open/close/error callback on socket
`sid`, and the firing of a pending reconnect timeout. -/
inductive RelayEvent where
  | ensure
  | downstreamConnect
  | payRequest (body : JsValue)
  | sockOpen (sid : Nat)
  | sockClose (sid : Nat)
  | sockError (sid : Nat)
  | timerFire

/-- One dispatch of the event loop.  Transport events on a socket in an
impossible readyState stutter.  A close event runs the registered close
handler (disconnect and schedule a reconnect); an error event runs the
error handler (same effects, state of the socket left to the following
close event); the reconnect timeout clears the flag and calls
ensureVmcConnection, as in the source. -/
def relayStep (w : World) : RelayEvent → World
  | .ensure => ensureVmcConnection w
  | .downstreamConnect => onDownstreamConnect w
  | .payRequest body => (apiPay body w).2
  | .sockOpen sid =>
      if readyStateOf w sid = .CONNECTING then
        onVmcOpenHandler (setSocketState w sid .OPEN)
      else w
  | .sockClose sid =>
      if readyStateOf w sid = .CONNECTING ∨ readyStateOf w sid = .OPEN then
        scheduleVmcReconnect { setSocketState w sid .CLOSED with vmcConnected := false }
      else w
  | .sockError sid =>
      if sid < w.socketStates.length then
        scheduleVmcReconnect { w with vmcConnected := false }
      else w
  | .timerFire =>
      if 0 < w.armedTimers then
        ensureVmcConnection
          { w with armedTimers := w.armedTimers - 1, vmcReconnectScheduled := false }
      else w

/-- Run a sequence of event-loop dispatches. -/
def runRelay (w : World) (es : List RelayEvent) : World :=
  es.foldl relayStep w

/-- The number of connection attempts the relay has ever opened. -/
def connectionAttempts (w : World) : Nat :=
  w.socketStates.length

/-- The number of sockets that are simultaneously open. -/
def openSocketCount (w : World) : Nat :=
  w.socketStates.countP (fun s => s == .OPEN)

/-- A downstream browser connection as the broadcast hub sees it: an
identity, the transport readyState, and whether the transport would fail
the write (a property of the peer, unknown to the relay). -/
structure FrontClient where
  cid : Nat
  readyState : ReadyState
  sendFails : Bool

/-- `client.send(payload)`: an asynchronous write whose failure surfaces
only in the transport outcome, never as an exception to the caller. -/
def clientSend (c : FrontClient) (payload : String) : Except String Unit :=
  if c.sendFails then Except.error "write failed" else Except.ok ()

/-- broadcastToFrontend: serialize the event once (`stringify` stands for
JSON.stringify), then walk the registered clients, writing the one payload
to every client whose readyState is OPEN and skipping the rest.  The
result lists every attempted delivery with its transport outcome. -/
def broadcastToFrontend (stringify : JsValue → String) (clients : List FrontClient)
    (messageObj : JsValue) : List (Nat × String × Except String Unit) :=
  let payload := stringify messageObj
  (clients.filter fun c => c.readyState == .OPEN).map
    fun c => (c.cid, payload, clientSend c payload)

/-- The upstream `message` handler: try to parse the frame (`parse` stands
for JSON.parse, returning none when it throws), broadcast the parsed event
on success, and silently discard the frame on failure. -/
def onVmcMessage (parse : String → Option JsValue) (stringify : JsValue → String)
    (clients : List FrontClient) (data : String) :
    List (Nat × String × Except String Unit) :=
  match parse data with
  | some parsed => broadcastToFrontend stringify clients parsed
  | none => []

/-- JavaScript `Number(v)` on the modelled values; none encodes NaN.
Fractional syntax and exotic coercions (arrays, objects) are outside the
catalog data and are mapped to NaN. -/
def toNumber : JsValue → Option Int
  | .num n => some n
  | .null => some 0
  | .undefined => none
  | .bool b => some (if b then 1 else 0)
  | .str s => if s == "" then some 0 else s.toInt?
  | .arr _ => none
  | .obj _ => none

/-- JavaScript `v ?? d` (nullish coalescing). -/
def nullishOr (v d : JsValue) : JsValue :=
  match v with
  | .undefined => d
  | .null => d
  | v => v

/-- The shape produced by mapProduct for one raw catalog entry. -/
structure ProductOut where
  id : JsValue
  name : JsValue
  price : Option Int
  image_url : String
  category : JsValue
  sku_id : JsValue
  brand_id : JsValue

/-- mapProduct: rename the raw data.json fields into the API shape. -/
def mapProduct (raw : JsValue) : ProductOut :=
  { id := getField raw "product_id"
    name := getField raw "product_name"
    price := toNumber (nullishOr (getField raw "product_price") (.num 0))
    image_url :=
      match getField raw "image" with
      | .str s => if s.startsWith "http" then s else ""
      | _ => ""
    category := nullishOr (getField raw "category_id") .null
    sku_id := nullishOr (getField raw "sku_id") .null
    brand_id := nullishOr (getField raw "brand_id") .null }

/-- `Array.isArray(data) ? data.map(mapProduct) : []` for one parsed
candidate file. -/
def productsOf (data : JsValue) : List ProductOut :=
  match data with
  | .arr xs => xs.map mapProduct
  | _ => []

/-- loadProducts over the outcome of reading and parsing each candidate
data.json path (none = the read or the JSON.parse threw): the first
successful candidate is returned after mapping; when every candidate
fails the accumulated error is thrown, modelled as none. -/
def loadProducts : List (Option JsValue) → Option (List ProductOut)
  | [] => none
  | none :: rest => loadProducts rest
  | some data :: _ => some (productsOf data)

/-- The response of GET /api/products: a 200 with the product list or a
500 with the error object. -/
inductive ProductsResponse where
  | ok (products : List ProductOut)
  | serverError (error : String)

/-- The GET /api/products handler: answer 200 with the loaded products,
or 500 when loadProducts throws. -/
def apiProducts (candidates : List (Option JsValue)) : ProductsResponse :=
  match loadProducts candidates with
  | some products => .ok products
  | none => .serverError "Failed to load products"

/-- The first candidate that reads and parses successfully. -/
def firstParsed (candidates : List (Option JsValue)) : Option JsValue :=
  (candidates.filterMap id).head?

/-- The stage field of the frontend modal state. -/
inductive Stage where
  | idle
  | vending
  | complete
deriving DecidableEq, BEq

/-- The state of one browser tab, as mutated by the WS message handler:
the vending flag, the toast text (activeMessage), the modal overlay, the
pending auto-dismiss and toast timeouts (their delays in ms), and a log of
every setActiveMessage call, recording each toast text ever shown. -/
structure ClientState where
  isVending : Bool
  activeMessage : String
  modalOpen : Bool
  modalStage : Stage
  modalText : String
  modalTimer : Option Nat
  toastTimer : Option Nat
  messageLog : List String

/-- The state at UI mount. -/
def initialClientState : ClientState :=
  { isVending := false
    activeMessage := ""
    modalOpen := false
    modalStage := .idle
    modalText := ""
    modalTimer := none
    toastTimer := none
    messageLog := [] }

/-- setActiveMessage, with the shown text recorded in the log. -/
def setActiveMessage (st : ClientState) (text : String) : ClientState :=
  { st with activeMessage := text, messageLog := st.messageLog ++ [text] }

/-- showToast: set the toast text and (re)arm the 2.5s clear timeout. -/
def showToast (st : ClientState) (text : String) : ClientState :=
  { setActiveMessage st text with toastTimer := some 2500 }

/-- An inbound downstream event, after JSON parsing: the three shapes the
handler branches on, and a catch-all for every other frame (ignored). -/
inductive BackendMsg where
  | statusMsg (status : String) (message : Option String)
  | vendResponse (success : Bool) (message : Option String)
  | vendComplete
  | other

/-- The WS message handler of the Products page.  `capturedModalStage` is
the stage of the `modal` state value the handler closure captured when the
mount effect registered it: the effect has an empty dependency list, so
the closure keeps the first render value of `modal` for the lifetime of
the listener, and the guard `modal.stage !== 'complete'` reads that
captured value, not the current state. -/
def onBackendMessage (capturedModalStage : Stage) (st : ClientState)
    (msg : BackendMsg) : ClientState :=
  match msg with
  | .statusMsg status message =>
      if status == "vending" then
        let st := { st with isVending := true }
        let st := setActiveMessage st (message.getD "Vending started")
        { st with modalOpen := true, modalStage := .vending,
                  modalText := "Vending in progress…" }
      else
        let st := { st with isVending := false }
        let st := setActiveMessage st ""
        if capturedModalStage != Stage.complete then
          { st with modalOpen := false, modalStage := .idle, modalText := "" }
        else st
  | .vendResponse success message =>
      if success then
        let st := { st with isVending := true }
        let st := setActiveMessage st "Vending started"
        { st with modalOpen := true, modalStage := .vending,
                  modalText := "Vending started…" }
      else
        showToast { st with isVending := false } (jsOrString message "Machine busy")
  | .vendComplete =>
      let st := { st with isVending := false, modalOpen := true,
                          modalStage := .complete,
                          modalText := "Vending complete! 🎉" }
      let st := { st with modalTimer := some 1500 }
      showToast st "Vending complete"
  | .other => st

/-- The handler as it runs in the mounted page: the captured modal is the
initial one, whose stage is idle. -/
def clientStep (st : ClientState) (msg : BackendMsg) : ClientState :=
  onBackendMessage Stage.idle st msg

/-- The same handler with the guard reading the current modal stage: the
behaviour the guard is written to express. -/
def onBackendMessageCurrent (st : ClientState) (msg : BackendMsg) : ClientState :=
  onBackendMessage st.modalStage st msg

/-- The auto-dismiss timeout armed by the vend-complete branch: close the
overlay and return to idle. -/
def modalTimerFires (st : ClientState) : ClientState :=
  { st with modalOpen := false, modalStage := .idle, modalText := "",
            modalTimer := none }

/-- The state after status(vending) from the initial state. -/
def vendTraceS1 : ClientState :=
  clientStep initialClientState (.statusMsg "vending" none)

/-- The state after the following vend-complete event. -/
def vendTraceS2 : ClientState :=
  clientStep vendTraceS1 BackendMsg.vendComplete

/-- The state after the auto-dismiss timeout then fires. -/
def vendTraceS3 : ClientState :=
  modalTimerFires vendTraceS2

/-- The concrete event trace used to exhibit two simultaneously open
upstream sockets: connect, lose the connection, let the reconnect timer
open attempt 1, accept a browser while attempt 1 is still connecting
(opening attempt 2, which becomes the current vmcSocket and takes the
queued status probe), then let attempt 2 finish its handshake first —
its open handler flushes the probe through itself while OPEN — and
finally let the stale attempt 1 open onto the already-empty queue.
Every send in this trace targets the current socket while it is OPEN. -/
def traceTwoOpen : List RelayEvent :=
  [.ensure, .sockOpen 0, .sockClose 0, .timerFire, .downstreamConnect,
   .sockOpen 2, .sockOpen 1]

/-- The concrete event trace used to exhibit two armed reconnect timers:
connect, lose the connection (timer 1 armed), accept a browser (opening
attempt 1), let attempt 1 open (which clears the scheduled flag without
cancelling timer 1) and then close again (arming timer 2). -/
def traceTwoTimers : List RelayEvent :=
  [.ensure, .sockOpen 0, .sockClose 0, .downstreamConnect, .sockOpen 1,
   .sockClose 1]

/-- A world whose current socket is open and marked connected, with one
connection attempt ever made. -/
def connectedWorld : World :=
  { vmcSocket := some 0
    vmcConnected := true
    vmcReconnectScheduled := false
    pendingMessagesQueue := []
    socketStates := [.OPEN]
    armedTimers := 0
    sentLog := [] }

/-- A disconnected world holding one connecting socket and two queued
commands, used to evaluate the flush on open. -/
def queuedWorld : World :=
  { vmcSocket := some 0
    vmcConnected := false
    vmcReconnectScheduled := false
    pendingMessagesQueue := [Command.status, Command.vend [.num 7]]
    socketStates := [.CONNECTING]
    armedTimers := 0
    sentLog := [] }

/-- Folding vmcSend over a command list appends exactly those commands to
the transmission log, in order, each against the current vmcSocket, and
changes nothing else. -/
theorem foldl_vmcSend (q : List Command) (w : World) :
    q.foldl vmcSend w
      = { w with sentLog := w.sentLog ++ q.map fun c => (w.vmcSocket, c) } := by
  induction q generalizing w with
  | nil => simp
  | cons c q ih => simp [vmcSend, ih, List.append_assoc]

/-- A freshly opened connection attempt is still CONNECTING, so the
send-or-enqueue guard sees it as not open. -/
theorem socketIsOpen_newSocket (w : World) : socketIsOpen (newSocket w) = false := by
  simp only [socketIsOpen, newSocket, readyStateOf, List.getD_eq_getElem?_getD,
    List.getElem?_concat_length, Option.getD_some]
  decide

/-- A truthy non-array value is coerced to the one-element array holding
it. -/
theorem coerceItems_singleton (v : JsValue) (ht : truthy v = true)
    (ha : isArr v = false) : coerceItems v = [v] := by
  cases v <;> simp_all [coerceItems, truthy, isArr]

/-- Claim C1.  The claim as frozen states that ensureConnected is also a
no-op while the upstream is Connecting or while a reconnect timer is
armed.  Counterexample on the code: from the initial state one call leaves
the upstream Connecting with no reconnect armed, and a second call opens a
second connection attempt instead of being a no-op. -/
theorem c1_ensure_counterexample :
    connectionAttempts (ensureVmcConnection initialWorld) = 1
    ∧ readyStateOf (ensureVmcConnection initialWorld) 0 = ReadyState.CONNECTING
    ∧ (ensureVmcConnection initialWorld).vmcConnected = false
    ∧ (ensureVmcConnection initialWorld).vmcReconnectScheduled = false
    ∧ connectionAttempts (ensureVmcConnection (ensureVmcConnection initialWorld)) = 2 :=
  ⟨rfl, rfl, rfl, rfl, rfl⟩

/-- Claim C1, amended.  ensureVmcConnection is a no-op exactly when the
connected flag is set and the current socket is open: in that case any
number of repeated calls leaves the state unchanged (one live connection,
zero additional connection attempts); in every other case — including
while a previous attempt is still Connecting or while a reconnect timer is
armed — it opens exactly one new connection attempt. -/
theorem c1_ensure_amended (w : World) :
    (currentOpen w = true → ∀ n : Nat, ensureVmcConnection^[n] w = w)
    ∧ (currentOpen w = false →
        ensureVmcConnection w = newSocket w
        ∧ connectionAttempts (ensureVmcConnection w) = connectionAttempts w + 1) := by
  constructor
  · intro h n
    exact Function.iterate_fixed (by simp [ensureVmcConnection, h]) n
  · intro h
    constructor
    · simp [ensureVmcConnection, h]
    · simp [ensureVmcConnection, h, newSocket, connectionAttempts]

theorem c1_ensure_amended_witness :
    ensureVmcConnection^[5] connectedWorld = connectedWorld
    ∧ openSocketCount connectedWorld = 1
    ∧ ensureVmcConnection initialWorld = newSocket initialWorld :=
  ⟨(c1_ensure_amended connectedWorld).1 rfl 5, rfl,
    ((c1_ensure_amended initialWorld).2 rfl).1⟩

/-- Claim C2.  The claimed invariant fails on the code: after traceTwoOpen
(a reconnect-timer attempt racing an ensureConnected call from a
downstream connection, with the current attempt completing its handshake
first) the relay holds two simultaneously open upstream sockets, and
after traceTwoTimers (a connection opening and closing again while a
reconnect timeout is still pending) two reconnect timers are armed at
once.  In both traces every queue flush goes through the current socket
while it is OPEN, or flushes an empty queue, so each step stays within
the faithful fragment of the send model. -/
theorem c2_invariant_violated :
    openSocketCount (runRelay initialWorld traceTwoOpen) = 2
    ∧ (runRelay initialWorld traceTwoTimers).armedTimers = 2 :=
  ⟨rfl, rfl⟩

/-- Claim C3.  The open event on the connecting socket the relay
currently owns is the transition into Connected, and it transmits every
queued command, in FIFO (arrival) order, exactly once each, against that
socket, leaving the queue empty in the same step: a single complete
flush.  The hypothesis that the opening socket is the current vmcSocket
keeps the statement inside the faithful fragment: only there do the
flushed sends target an OPEN socket, as the source requires (a flush
through a stale CONNECTING vmcSocket would throw instead). -/
theorem c3_fifo_flush (w : World) (sid : Nat)
    (h : readyStateOf w sid = ReadyState.CONNECTING)
    (hcur : w.vmcSocket = some sid) :
    (relayStep w (.sockOpen sid)).pendingMessagesQueue = []
    ∧ (relayStep w (.sockOpen sid)).sentLog
        = w.sentLog ++ w.pendingMessagesQueue.map (fun c => (some sid, c))
    ∧ (relayStep w (.sockOpen sid)).vmcConnected = true := by
  have hstep : relayStep w (.sockOpen sid)
      = onVmcOpenHandler (setSocketState w sid .OPEN) := by
    simp [relayStep, h]
  rw [hstep]
  refine ⟨rfl, ?_, ?_⟩ <;>
    simp [onVmcOpenHandler, foldl_vmcSend, setSocketState, hcur]

theorem c3_fifo_flush_witness :
    (relayStep queuedWorld (.sockOpen 0)).pendingMessagesQueue = []
    ∧ (relayStep queuedWorld (.sockOpen 0)).sentLog
        = queuedWorld.sentLog
          ++ queuedWorld.pendingMessagesQueue.map (fun c => (some 0, c))
    ∧ (relayStep queuedWorld (.sockOpen 0)).vmcConnected = true :=
  c3_fifo_flush queuedWorld 0 rfl rfl

/-- Claim C4.  The claim holds of the guard as written but not of the
running code: the mount-time effect registers the handler once, so the
guard `modal.stage !== 'complete'` reads the captured initial modal
(stage idle) forever.  After vend-complete the Complete overlay is
showing, yet a status(idle) event closes it and resets the stage, while
the state transition the guard is written to express (read the current
stage) would leave the Complete overlay open. -/
theorem c4_stale_complete_guard :
    (clientStep initialClientState BackendMsg.vendComplete).modalStage = Stage.complete
    ∧ (clientStep initialClientState BackendMsg.vendComplete).modalOpen = true
    ∧ (clientStep (clientStep initialClientState BackendMsg.vendComplete)
        (.statusMsg "idle" none)).modalOpen = false
    ∧ (clientStep (clientStep initialClientState BackendMsg.vendComplete)
        (.statusMsg "idle" none)).modalStage = Stage.idle
    ∧ (clientStep (clientStep initialClientState BackendMsg.vendComplete)
        (.statusMsg "idle" none)).isVending = false
    ∧ (clientStep (clientStep initialClientState BackendMsg.vendComplete)
        (.statusMsg "idle" none)).activeMessage = ""
    ∧ (onBackendMessageCurrent (clientStep initialClientState BackendMsg.vendComplete)
        (.statusMsg "idle" none)).modalOpen = true
    ∧ (onBackendMessageCurrent (clientStep initialClientState BackendMsg.vendComplete)
        (.statusMsg "idle" none)).modalStage = Stage.complete :=
  ⟨rfl, rfl, rfl, rfl, rfl, rfl, rfl, rfl⟩

/-- Claim C5.  From the initial state, status(vending) followed by
vend-complete produces the stage sequence Idle, Vending, Complete, and
the firing of the 1500 ms auto-dismiss timeout armed by vend-complete
returns the stage to Idle with the overlay closed; over the whole run the
toast text "Vending complete" is shown exactly once. -/
theorem c5_vend_trace :
    ([initialClientState.modalStage, vendTraceS1.modalStage,
        vendTraceS2.modalStage, vendTraceS3.modalStage]
        = [Stage.idle, Stage.vending, Stage.complete, Stage.idle])
    ∧ vendTraceS2.modalTimer = some 1500
    ∧ vendTraceS3.messageLog = ["Vending started", "Vending complete"]
    ∧ vendTraceS3.messageLog.count "Vending complete" = 1
    ∧ vendTraceS2.modalOpen = true ∧ vendTraceS3.modalOpen = false :=
  ⟨rfl, rfl, rfl, by decide, rfl, rfl⟩

/-- Claim C6.  A pay request whose items coerce to the empty array is
answered with the 400 validation error and leaves the relay state exactly
unchanged (nothing enqueued, nothing sent, no connection attempt); a pay
request for item 7 while the upstream is not connected enqueues exactly
one vend command at the tail and immediately answers with the acceptance
response, transmitting nothing. -/
theorem c6_pay_validation (w : World) (body : JsValue)
    (hempty : coerceItems
        (getField (if truthy body then body else JsValue.obj []) "items") = [])
    (hdisc : currentOpen w = false) :
    apiPay body w = (PayResponse.badRequest "items array required", w)
    ∧ (apiPay (.obj [("items", .arr [.num 7])]) w).1
        = PayResponse.success "Payment processed, vending requested" [.num 7]
    ∧ (apiPay (.obj [("items", .arr [.num 7])]) w).2.pendingMessagesQueue
        = w.pendingMessagesQueue ++ [Command.vend [.num 7]]
    ∧ (apiPay (.obj [("items", .arr [.num 7])]) w).2.sentLog = w.sentLog := by
  have hw : ensureVmcConnection w = newSocket w := by
    simp [ensureVmcConnection, hdisc]
  have hq : (newSocket w).pendingMessagesQueue = w.pendingMessagesQueue := rfl
  have hs : (newSocket w).sentLog = w.sentLog := rfl
  refine ⟨?_, ?_, ?_, ?_⟩
  · simp [apiPay, hempty]
  all_goals
    simp [apiPay, getField, List.lookup, coerceItems, truthy, hw,
      socketIsOpen_newSocket, hq, hs]

theorem c6_pay_validation_witness :
    apiPay (JsValue.obj [("items", JsValue.arr [])]) initialWorld
      = (PayResponse.badRequest "items array required", initialWorld)
    ∧ (apiPay (.obj [("items", .arr [.num 7])]) initialWorld).2.pendingMessagesQueue
        = initialWorld.pendingMessagesQueue ++ [Command.vend [.num 7]] :=
  ⟨(c6_pay_validation initialWorld (JsValue.obj [("items", JsValue.arr [])]) rfl rfl).1,
   (c6_pay_validation initialWorld (JsValue.obj [("items", JsValue.arr [])]) rfl rfl).2.2.1⟩

/-- The client ids the broadcast writes to are exactly the ids of the
clients whose transport is OPEN, in registration order. -/
theorem broadcast_ids (stringify : JsValue → String) (clients : List FrontClient)
    (m : JsValue) :
    ((broadcastToFrontend stringify clients m).map fun d => d.1)
      = (clients.filter fun c => c.readyState == ReadyState.OPEN).map FrontClient.cid := by
  simp [broadcastToFrontend]

/-- Claim C7.  broadcastToFrontend serializes the event once and delivers
that one payload to exactly the registered clients whose transport is
OPEN, in registration order, skipping the others; the delivery list is a
function of readyStates only, so one client's write failure never
prevents delivery to any other client, and the call itself always
returns (the per-client outcome is never propagated). -/
theorem c7_broadcast (stringify : JsValue → String) (clients : List FrontClient)
    (m : JsValue) :
    ((broadcastToFrontend stringify clients m).map fun d => d.1)
      = (clients.filter fun c => c.readyState == ReadyState.OPEN).map FrontClient.cid
    ∧ (∀ d ∈ broadcastToFrontend stringify clients m, d.2.1 = stringify m)
    ∧ (∀ c ∈ clients, c.readyState = ReadyState.OPEN →
        c.cid ∈ ((broadcastToFrontend stringify clients m).map fun d => d.1)) := by
  refine ⟨broadcast_ids stringify clients m, ?_, ?_⟩
  · intro d hd
    simp only [broadcastToFrontend, List.mem_map] at hd
    obtain ⟨c, _, rfl⟩ := hd
    rfl
  · intro c hc hopen
    rw [broadcast_ids]
    exact List.mem_map.mpr ⟨c, List.mem_filter.mpr ⟨hc, by rw [hopen]; rfl⟩, rfl⟩

theorem c7_broadcast_witness :
    (1 : Nat) ∈ ((broadcastToFrontend (fun _ => "payload")
        [⟨1, .OPEN, false⟩, ⟨2, .OPEN, true⟩, ⟨3, .CLOSED, false⟩]
        JsValue.null).map fun d => d.1) :=
  (c7_broadcast (fun _ => "payload")
      [⟨1, .OPEN, false⟩, ⟨2, .OPEN, true⟩, ⟨3, .CLOSED, false⟩] JsValue.null).2.2
    ⟨1, .OPEN, false⟩ (List.mem_cons_self _ _) rfl

/-- Claim C8.  The upstream message handler forwards nothing and changes
nothing when the frame fails to parse (the failure is swallowed by the
handler, which returns normally), and it broadcasts exactly the parsed
event when parsing succeeds: only successfully parsed frames reach the
downstream clients. -/
theorem c8_parse_guard (parse : String → Option JsValue)
    (stringify : JsValue → String) (clients : List FrontClient) (data : String) :
    (parse data = none → onVmcMessage parse stringify clients data = [])
    ∧ (∀ v, parse data = some v →
        onVmcMessage parse stringify clients data
          = broadcastToFrontend stringify clients v) := by
  constructor
  · intro h; simp [onVmcMessage, h]
  · intro v h; simp [onVmcMessage, h]

theorem c8_parse_guard_witness :
    onVmcMessage (fun _ => none) (fun _ => "payload")
      [⟨1, .OPEN, false⟩] "not json" = []
    ∧ onVmcMessage (fun _ => some JsValue.null) (fun _ => "payload")
        [⟨1, .OPEN, false⟩] "null"
      = broadcastToFrontend (fun _ => "payload") [⟨1, .OPEN, false⟩] JsValue.null :=
  ⟨(c8_parse_guard (fun _ => none) (fun _ => "payload")
      [⟨1, .OPEN, false⟩] "not json").1 rfl,
   (c8_parse_guard (fun _ => some JsValue.null) (fun _ => "payload")
      [⟨1, .OPEN, false⟩] "null").2 JsValue.null rfl⟩

/-- Claim C9.  A truthy non-array items value is coerced to the
one-element array holding it: the request is not rejected, the acceptance
response echoes the coerced array, and the single-item vend command is
enqueued or transmitted. -/
theorem c9_truthy_coercion (w : World) (v : JsValue) (ht : truthy v = true)
    (ha : isArr v = false) :
    (apiPay (.obj [("items", v)]) w).1
      = PayResponse.success "Payment processed, vending requested" [v]
    ∧ ((apiPay (.obj [("items", v)]) w).2.pendingMessagesQueue
          = w.pendingMessagesQueue ++ [Command.vend [v]]
        ∨ (apiPay (.obj [("items", v)]) w).2.sentLog
          = w.sentLog ++ [(w.vmcSocket, Command.vend [v])]) := by
  have hc : coerceItems v = [v] := coerceItems_singleton v ht ha
  have hg : getField (JsValue.obj [("items", v)]) "items" = v := by
    simp [getField, List.lookup]
  by_cases ho : currentOpen w = true
  · have hw : ensureVmcConnection w = w := by simp [ensureVmcConnection, ho]
    have hso : socketIsOpen w = true := by
      have h2 := ho
      unfold currentOpen at h2
      exact (Bool.and_eq_true _ _ |>.mp h2).2
    refine ⟨?_, Or.inr ?_⟩ <;> simp [apiPay, hg, hc, hw, hso, vmcSend, truthy]
  · have ho' : currentOpen w = false := by simpa using ho
    have hw : ensureVmcConnection w = newSocket w := by
      simp [ensureVmcConnection, ho']
    have hq : (newSocket w).pendingMessagesQueue = w.pendingMessagesQueue := rfl
    refine ⟨?_, Or.inl ?_⟩ <;>
      simp [apiPay, hg, hc, hw, socketIsOpen_newSocket, hq, truthy]

theorem c9_truthy_coercion_witness :
    (apiPay (.obj [("items", JsValue.num 7)]) initialWorld).1
      = PayResponse.success "Payment processed, vending requested" [JsValue.num 7] :=
  (c9_truthy_coercion initialWorld (JsValue.num 7) (by decide) rfl).1

/-- loadProducts returns the mapping of the first candidate that reads
and parses, and throws only when there is none. -/
theorem loadProducts_eq (cands : List (Option JsValue)) :
    loadProducts cands = (firstParsed cands).map productsOf := by
  induction cands with
  | nil => rfl
  | cons c rest ih =>
    cases c with
    | none => simpa [loadProducts, firstParsed] using ih
    | some v => simp [loadProducts, firstParsed]

/-- No candidate parses exactly when every candidate fails. -/
theorem firstParsed_none_iff (cands : List (Option JsValue)) :
    firstParsed cands = none ↔ ∀ c ∈ cands, c = none := by
  simp [firstParsed, List.head?_eq_none_iff, List.filterMap_eq_nil_iff, id]

/-- Claim C10.  When the first readable data.json parses to a JSON value
that is not an array, GET /api/products answers 200 with the empty list;
the 500 error response is produced exactly when every candidate path
fails to read or parse. -/
theorem c10_products (cands : List (Option JsValue)) (v : JsValue)
    (h1 : firstParsed cands = some v) (h2 : isArr v = false) :
    apiProducts cands = ProductsResponse.ok []
    ∧ ∀ cs : List (Option JsValue),
        (apiProducts cs = ProductsResponse.serverError "Failed to load products"
          ↔ ∀ c ∈ cs, c = none) := by
  constructor
  · have hp : productsOf v = [] := by
      cases v <;> simp_all [productsOf, isArr]
    simp [apiProducts, loadProducts_eq, h1, hp]
  · intro cs
    rw [← firstParsed_none_iff]
    cases h : firstParsed cs <;> simp [apiProducts, loadProducts_eq, h]

theorem c10_products_witness :
    apiProducts [none, some (JsValue.obj []), none] = ProductsResponse.ok []
    ∧ (apiProducts [(none : Option JsValue)]
        = ProductsResponse.serverError "Failed to load products"
        ↔ ∀ c ∈ [(none : Option JsValue)], c = none) :=
  ⟨(c10_products [none, some (JsValue.obj []), none] (JsValue.obj []) rfl rfl).1,
   (c10_products [none, some (JsValue.obj []), none] (JsValue.obj []) rfl rfl).2 [none]⟩
